import Mathlib

/-!
Shallow embedding of the access-code / session authentication core of the
cinestream server: the `POST /api/auth` route handler and the `authenticate`
middleware of the main routes file, the database schema (`access_codes`,
`sessions`), the slice of the `jsonwebtoken` interface the handlers use, and
the error-handler response shape.

Modelling conventions:
- Timestamps (`Date.now()`, `new Date()`, timestamp columns) are milliseconds
  since the epoch, as `Nat`; one clock instant `now` is passed per request.
- A JavaScript string that may contain a serialized JWT is a `List JChar`,
  where an entire JWT (a base64url string, which never contains a space) is a
  single atomic character `JChar.tok` carrying its payload and signature.
  This keeps token strings injective in (payload, signature) and inert under
  `split(' ')`, exactly like real compact JWTs.
- The HMAC signature is modelled ideally: a token's signature is valid for a
  secret exactly when the signature field equals that secret.
- The database is a pair of row lists; drizzle's `findFirst` is `List.find?`
  and `insert` appends, failing when the `unique` constraint on
  `sessions.token` is violated (the driver then throws, which the route
  surfaces as a 500, modelled by `RouteResult.dbErr`).
-/

/-- JWT claims payload: `jwt.sign(\x7b codeId: validCode.id \x7d, JWT_SECRET,
\x7b expiresIn: '24h' \x7d)` signs the `codeId`, and `jsonwebtoken` adds the
issue time `iat` and, from `expiresIn`, `exp = iat + 24h`. -/
structure Claims where
  codeId : Nat
  iat : Nat
  exp : Nat
deriving DecidableEq

/-- A serialized JWT: payload plus signature. The signature is valid for
secret `s` exactly when `sig = s` (ideal MAC model). -/
structure TokenData where
  claims : Claims
  sig : String
deriving DecidableEq

/-- One character of a JavaScript string in this model: an ordinary character,
or an entire serialized JWT as one atomic (space-free) unit. -/
inductive JChar where
  | ch (c : Char)
  | tok (t : TokenData)
deriving DecidableEq

/-- A JavaScript string in this model. -/
abbrev JStr := List JChar

/-- Embed an ordinary string literal. -/
def JStr.ofString (s : String) : JStr := s.toList.map JChar.ch

/-- JavaScript `String.prototype.split(sep)` for a single-character
separator: splits at every occurrence, keeping empty segments, and returns
`[s]` when the separator does not occur. -/
def splitChar (sep : JChar) : JStr → List JStr
  | [] => [[]]
  | x :: xs =>
    if x = sep then [] :: splitChar sep xs
    else
      match splitChar sep xs with
      | [] => [[x]]
      | y :: ys => (x :: y) :: ys

/-- Process-wide signing secret `process.env.JWT_SECRET || 'cinema-secret'`,
modelled as its default value. -/
def JWT_SECRET : String := "cinema-secret"

/-- Milliseconds in 24 hours (`24 * 60 * 60 * 1000`). -/
def msPerDay : Nat := 24 * 60 * 60 * 1000

/-- `jwt.sign(\x7b codeId \x7d, secret, \x7b expiresIn: '24h' \x7d)` called at
time `now`: a single-token string whose claims carry the code id, issue time
`now` and expiry `now + 24h`, signed with `secret`. -/
def jwtSign (codeId : Nat) (secret : String) (now : Nat) : JStr :=
  [JChar.tok ⟨⟨codeId, now, now + msPerDay⟩, secret⟩]

/-- `jwt.verify(token, secret)` called at time `now`: fails on a string that
is not a single well-formed JWT (`jwt malformed`), on a signature not produced
with `secret` (`invalid signature`), and on an expiry claim that has passed
(`jwt expired`, raised when `now` reaches `exp`); otherwise returns the
decoded claims. The error strings are `jsonwebtoken`'s error messages. -/
def jwtVerify (token : JStr) (secret : String) (now : Nat) : Except String Claims :=
  match token with
  | [JChar.tok t] =>
    if t.sig = secret then
      if now < t.claims.exp then Except.ok t.claims
      else Except.error "jwt expired"
    else Except.error "invalid signature"
  | _ => Except.error "jwt malformed"

/-- Row of the `access_codes` table. -/
structure AccessCode where
  id : Nat
  code : String
  validUntil : Nat
  createdAt : Nat
deriving DecidableEq

/-- Row of the `sessions` table (`access_code_id` is a nullable reference). -/
structure Session where
  id : Nat
  token : JStr
  accessCodeId : Option Nat
  createdAt : Nat
  expiresAt : Nat
deriving DecidableEq

/-- The persistent store: the two tables. -/
structure Store where
  accessCodes : List AccessCode
  sessions : List Session
deriving DecidableEq

/-- `db.query.accessCodes.findFirst(\x7b where: eq(accessCodes.code, code) \x7d)`:
first row whose `code` column equals the argument exactly. -/
def findFirstAccessCodeByCode (st : Store) (c : String) : Option AccessCode :=
  st.accessCodes.find? (fun a => a.code == c)

/-- `db.query.sessions.findFirst(\x7b where: eq(sessions.token, token) \x7d)`:
first row whose `token` column equals the argument exactly. -/
def findFirstSessionByToken (st : Store) (tk : JStr) : Option Session :=
  st.sessions.find? (fun s => s.token == tk)

/-- `db.insert(sessions).values(...)`: appends the row, except that the
`unique` constraint on `sessions.token` makes the driver throw (`none`) when a
row with the same token string already exists. -/
def insertSession (st : Store) (s : Session) : Option Store :=
  if st.sessions.any (fun s0 => s0.token == s.token) then none
  else some ⟨st.accessCodes, st.sessions ++ [s]⟩

/-- Outcome of a route handler: a successful JSON value, an HTTP error built
with `createError(status, message)`, or an uncaught database-driver exception
(surfaced by the error middleware as a 500). -/
inductive RouteResult (α : Type) where
  | ok (a : α)
  | err (status : Nat) (message : String)
  | dbErr
deriving DecidableEq

/-- The `POST /api/auth` handler (RedeemCode). Checks `!code` (for a string
input: the empty string is falsy), looks up the access code by exact match,
rejects a missing row with 401 `Invalid code` and an expired row
(`validUntil < new Date()`) with 401 `Code has expired`, signs a 24h token
embedding the code id, inserts one session row with that token, the code
reference, `createdAt = now` and `expiresAt = now + 24h`, and returns the
token. -/
def redeemCode (code : String) (st : Store) (now : Nat) : RouteResult JStr × Store :=
  if code = "" then (RouteResult.err 400 "Access code is required", st)
  else
    match findFirstAccessCodeByCode st code with
    | none => (RouteResult.err 401 "Invalid code", st)
    | some validCode =>
      if validCode.validUntil < now then
        (RouteResult.err 401 "Code has expired", st)
      else
        let token := jwtSign validCode.id JWT_SECRET now
        match insertSession st ⟨st.sessions.length, token, some validCode.id, now, now + msPerDay⟩ with
        | none => (RouteResult.dbErr, st)
        | some st' => (RouteResult.ok token, st')

/-- `req.headers.authorization?.split(' ')[1]`: the second space-separated
segment of the authorization header, when the header and segment exist. -/
def headerTokenSeg (h : Option JStr) : Option JStr :=
  match h with
  | none => none
  | some s => (splitChar (JChar.ch ' ') s)[1]?

/-- The `authenticate` middleware. Extracts the second space-separated segment
of the authorization header (missing or empty — falsy — fails 401
`No token provided`), verifies it with `jwt.verify` (a thrown verification
error is caught and re-raised as 401 with the error's message), looks the
exact token string up in `sessions`, and rejects a missing or expired row
with 401 `Session expired`; on success the decoded claims become `req.user`.
The store is threaded through to record that no branch writes to it. -/
def authenticate (h : Option JStr) (st : Store) (now : Nat) : RouteResult Claims × Store :=
  match headerTokenSeg h with
  | none => (RouteResult.err 401 "No token provided", st)
  | some token =>
    if token = [] then (RouteResult.err 401 "No token provided", st)
    else
      match jwtVerify token JWT_SECRET now with
      | Except.error m => (RouteResult.err 401 m, st)
      | Except.ok decoded =>
        match findFirstSessionByToken st token with
        | none => (RouteResult.err 401 "Session expired", st)
        | some session =>
          if session.expiresAt < now then (RouteResult.err 401 "Session expired", st)
          else (RouteResult.ok decoded, st)

/-- `verifyToken` from the auth service: the same verify-then-lookup pipeline
as `authenticate`, returning the decoded claims or `null`. -/
def verifyToken (token : JStr) (st : Store) (now : Nat) : Option Claims :=
  match jwtVerify token JWT_SECRET now with
  | Except.error _ => none
  | Except.ok decoded =>
    match findFirstSessionByToken st token with
    | none => none
    | some session => if session.expiresAt < now then none else some decoded

/-- The cause-dependent part of the error middleware's JSON response: the
`error` field carries the error's message (in every environment) and the
`status` field its HTTP status. The request-metadata fields (`path`,
`timestamp`, `requestId`) do not depend on the failure cause and are
omitted. -/
structure ErrorBody where
  error : String
  status : Nat
deriving DecidableEq

/-- `errorHandler`'s response for an error built by `createError(status,
message)`. -/
def errorHandlerResponse (status : Nat) (message : String) : ErrorBody :=
  ⟨message, status⟩

/-! Helper lemmas. -/

lemma splitChar_nosep (sep : JChar) (l : JStr) (h : sep ∉ l) : splitChar sep l = [l] := by
  induction l with
  | nil => rfl
  | cons x xs ih =>
    have hx : ¬ x = sep := fun e => h (by simp [e])
    have hxs : sep ∉ xs := fun hm => h (List.mem_cons_of_mem _ hm)
    simp [splitChar, hx, ih hxs]

lemma splitChar_append (sep : JChar) (s t : JStr) (hs : sep ∉ s) :
    splitChar sep (s ++ sep :: t) = s :: splitChar sep t := by
  induction s with
  | nil => simp [splitChar]
  | cons x xs ih =>
    have hx : ¬ x = sep := fun e => hs (by simp [e])
    have hxs : sep ∉ xs := fun hm => hs (List.mem_cons_of_mem _ hm)
    simp [splitChar, hx, ih hxs]

lemma authenticate_congr (h₁ h₂ : Option JStr) (st : Store) (now : Nat)
    (e : headerTokenSeg h₁ = headerTokenSeg h₂) :
    authenticate h₁ st now = authenticate h₂ st now := by
  unfold authenticate
  rw [e]

lemma headerTokenSeg_word_space (s t : JStr) (hs : JChar.ch ' ' ∉ s) :
    headerTokenSeg (some (s ++ JChar.ch ' ' :: t)) = (splitChar (JChar.ch ' ') t)[0]? := by
  simp [headerTokenSeg, splitChar_append _ _ _ hs]

lemma ofString_space_append (w : String) (t : JStr) :
    JStr.ofString (w ++ " ") ++ t = JStr.ofString w ++ JChar.ch ' ' :: t := by
  simp [JStr.ofString]

lemma redeemCode_ok_intro (code : String) (st : Store) (now : Nat) (ac : AccessCode)
    (hcode : code ≠ "")
    (hfind : findFirstAccessCodeByCode st code = some ac)
    (hval : ¬ ac.validUntil < now)
    (hfresh : findFirstSessionByToken st (jwtSign ac.id JWT_SECRET now) = none) :
    redeemCode code st now =
      (RouteResult.ok (jwtSign ac.id JWT_SECRET now),
       ⟨st.accessCodes,
        st.sessions ++ [⟨st.sessions.length, jwtSign ac.id JWT_SECRET now,
          some ac.id, now, now + msPerDay⟩]⟩) := by
  have hfresh' := List.find?_eq_none.mp hfresh
  have hany : (st.sessions.any fun s0 => s0.token == jwtSign ac.id JWT_SECRET now) = false := by
    rw [List.any_eq_false]
    exact hfresh'
  simp [redeemCode, hcode, hfind, hval, insertSession, hany]

lemma redeemCode_ok_cases (code : String) (st : Store) (now : Nat) (tok : JStr) (st' : Store)
    (h : redeemCode code st now = (RouteResult.ok tok, st')) :
    code ≠ "" ∧
    ∃ ac, findFirstAccessCodeByCode st code = some ac ∧ ¬ ac.validUntil < now ∧
      tok = jwtSign ac.id JWT_SECRET now ∧
      st' = ⟨st.accessCodes,
        st.sessions ++ [⟨st.sessions.length, tok, some ac.id, now, now + msPerDay⟩]⟩ := by
  by_cases hc : code = ""
  · simp [redeemCode, hc] at h
  · refine ⟨hc, ?_⟩
    rcases hfind : findFirstAccessCodeByCode st code with _ | ac
    · simp [redeemCode, hc, hfind] at h
    · by_cases hv : ac.validUntil < now
      · simp [redeemCode, hc, hfind, hv] at h
      · by_cases hany : (st.sessions.any fun s0 => s0.token == jwtSign ac.id JWT_SECRET now) = true
        · simp [redeemCode, hc, hfind, hv, insertSession, hany] at h
        · rw [Bool.not_eq_true] at hany
          simp [redeemCode, hc, hfind, hv, insertSession, hany] at h
          exact ⟨ac, rfl, hv, h.1.symm, h.2.symm ▸ by rw [← h.1]⟩

/-! Claim theorems. -/

/-- C7: `authenticate` is a pure read-and-verify operation: for every
authorization-header value, store state and time, it leaves the Session table
and the AccessCode table exactly unchanged (the returned store is the input
store), whether it succeeds or fails. -/
theorem authenticate_preserves_store (h : Option JStr) (st : Store) (now : Nat) :
    (authenticate h st now).2 = st := by
  unfold authenticate
  rcases headerTokenSeg h with _ | token
  · rfl
  · by_cases ht : token = []
    · simp [ht]
    · rcases hv : jwtVerify token JWT_SECRET now with m | c
      · simp [ht, hv]
      · rcases hf : findFirstSessionByToken st token with _ | s
        · simp [ht, hv, hf]
        · by_cases he : s.expiresAt < now
          · simp [ht, hv, hf, he]
          · simp [ht, hv, hf, he]

/-- C2 counterexample: with one access code `old` whose `validUntil` is 0, at
time 5 the unknown-code failure and the expired-code failure both carry status
401 but different messages (`Invalid code` vs `Code has expired`), and neither
message is `Invalid or expired code`; so the two failures are not identical as
claimed. -/
theorem redeemCode_error_messages_distinguish :
    (redeemCode "nope" ⟨[⟨1, "old", 0, 0⟩], []⟩ 5).1 = RouteResult.err 401 "Invalid code" ∧
    (redeemCode "old" ⟨[⟨1, "old", 0, 0⟩], []⟩ 5).1 = RouteResult.err 401 "Code has expired" ∧
    (RouteResult.err 401 "Invalid code" : RouteResult JStr)
      ≠ RouteResult.err 401 "Code has expired" ∧
    (RouteResult.err 401 "Invalid code" : RouteResult JStr)
      ≠ RouteResult.err 401 "Invalid or expired code" := by
  exact ⟨by decide, by decide, by decide, by decide⟩

/-- C2 amended: for every input code, the no-matching-row failure and the
matching-but-expired failure both carry HTTP status 401, but their error
messages differ — `Invalid code` when no row matches, `Code has expired` when
a matching row has `validUntil` in the past — so the caller can distinguish
the two cases by the message. -/
theorem redeemCode_unknown_vs_expired (st : Store) (now : Nat) (code : String)
    (hcode : code ≠ "") :
    (findFirstAccessCodeByCode st code = none →
      redeemCode code st now = (RouteResult.err 401 "Invalid code", st)) ∧
    (∀ ac, findFirstAccessCodeByCode st code = some ac → ac.validUntil < now →
      redeemCode code st now = (RouteResult.err 401 "Code has expired", st)) := by
  constructor
  · intro hf
    simp [redeemCode, hcode, hf]
  · intro ac hf hv
    simp [redeemCode, hcode, hf, hv]

/-- C2 witness: the amended statement at a concrete store and inputs. -/
theorem redeemCode_unknown_vs_expired_witness :
    redeemCode "nope" ⟨[⟨1, "old", 0, 0⟩], []⟩ 5
      = (RouteResult.err 401 "Invalid code", ⟨[⟨1, "old", 0, 0⟩], []⟩) ∧
    redeemCode "old" ⟨[⟨1, "old", 0, 0⟩], []⟩ 5
      = (RouteResult.err 401 "Code has expired", ⟨[⟨1, "old", 0, 0⟩], []⟩) :=
  ⟨(redeemCode_unknown_vs_expired ⟨[⟨1, "old", 0, 0⟩], []⟩ 5 "nope" (by decide)).1
      (by decide),
   (redeemCode_unknown_vs_expired ⟨[⟨1, "old", 0, 0⟩], []⟩ 5 "old" (by decide)).2
      ⟨1, "old", 0, 0⟩ (by decide) (by decide)⟩

/-- C8 counterexample: a missing header and an expired session row both fail
with status 401, but the error middleware's response bodies differ (`error`
field `No token provided` vs `Session expired`), so the body does retain the
specific cause. -/
theorem authenticate_failure_bodies_distinguish :
    (authenticate none
        ⟨[], [⟨0, [JChar.tok ⟨⟨1, 0, msPerDay⟩, "cinema-secret"⟩], some 1, 0, 100⟩]⟩ 200).1
      = RouteResult.err 401 "No token provided" ∧
    (authenticate
        (some (JStr.ofString "Bearer " ++ [JChar.tok ⟨⟨1, 0, msPerDay⟩, "cinema-secret"⟩]))
        ⟨[], [⟨0, [JChar.tok ⟨⟨1, 0, msPerDay⟩, "cinema-secret"⟩], some 1, 0, 100⟩]⟩ 200).1
      = RouteResult.err 401 "Session expired" ∧
    errorHandlerResponse 401 "No token provided" ≠ errorHandlerResponse 401 "Session expired" := by
  exact ⟨by decide, by decide, by decide⟩

/-- C8 amended: every `authenticate` failure carries the same HTTP status 401
(one user-visible class of response by status), but the response body built by
the error handler carries the failure's own message in its `error` field, so
the specific cause is retained in the body. -/
theorem authenticate_failure_status_uniform (h : Option JStr) (st : Store) (now : Nat)
    (s : Nat) (m : String)
    (hfail : (authenticate h st now).1 = RouteResult.err s m) :
    s = 401 ∧ errorHandlerResponse s m = ⟨m, 401⟩ := by
  have hs : s = 401 := by
    unfold authenticate at hfail
    rcases hh : headerTokenSeg h with _ | token <;> rw [hh] at hfail
    · simp at hfail
      exact hfail.1.symm
    · by_cases ht : token = []
      · simp [ht] at hfail
        exact hfail.1.symm
      · rcases hv : jwtVerify token JWT_SECRET now with m' | c
        · simp [ht, hv] at hfail
          exact hfail.1.symm
        · rcases hf : findFirstSessionByToken st token with _ | sess
          · simp [ht, hv, hf] at hfail
            exact hfail.1.symm
          · by_cases he : sess.expiresAt < now
            · simp [ht, hv, hf, he] at hfail
              exact hfail.1.symm
            · simp [ht, hv, hf, he] at hfail
  exact ⟨hs, hs ▸ rfl⟩

/-- C8 witness: the amended statement at a concrete failing input. -/
theorem authenticate_failure_status_uniform_witness :
    (401 : Nat) = 401 ∧
    errorHandlerResponse 401 "No token provided" = ⟨"No token provided", 401⟩ :=
  authenticate_failure_status_uniform none ⟨[], []⟩ 0 401 "No token provided" (by decide)

/-- C6: on successful redemption, exactly one new Session row is appended,
carrying the returned token, the redeemed AccessCode's id, creation time
`now` and `expiresAt = now + 24h`; the token is the signed JWT embedding that
id with a 24-hour expiry claim; the AccessCode table is untouched. -/
theorem redeemCode_success_effect (code : String) (st : Store) (now : Nat)
    (tok : JStr) (st' : Store)
    (h : redeemCode code st now = (RouteResult.ok tok, st')) :
    ∃ ac, findFirstAccessCodeByCode st code = some ac ∧
      tok = [JChar.tok ⟨⟨ac.id, now, now + msPerDay⟩, JWT_SECRET⟩] ∧
      st'.accessCodes = st.accessCodes ∧
      st'.sessions = st.sessions ++
        [⟨st.sessions.length, tok, some ac.id, now, now + msPerDay⟩] := by
  obtain ⟨-, ac, hfind, -, htok, hst⟩ := redeemCode_ok_cases code st now tok st' h
  refine ⟨ac, hfind, ?_, ?_, ?_⟩
  · rw [htok]
    rfl
  · rw [hst]
  · rw [hst]

/-- C6 witness: the effect statement at a concrete successful redemption. -/
theorem redeemCode_success_effect_witness :
    ∃ ac, findFirstAccessCodeByCode ⟨[⟨1, "LAUNCH24", 10, 0⟩], []⟩ "LAUNCH24" = some ac ∧
      [JChar.tok ⟨⟨1, 5, 5 + msPerDay⟩, JWT_SECRET⟩]
        = [JChar.tok ⟨⟨ac.id, 5, 5 + msPerDay⟩, JWT_SECRET⟩] ∧
      (⟨[⟨1, "LAUNCH24", 10, 0⟩],
        [⟨0, [JChar.tok ⟨⟨1, 5, 5 + msPerDay⟩, JWT_SECRET⟩], some 1, 5, 5 + msPerDay⟩]⟩
        : Store).accessCodes
        = (⟨[⟨1, "LAUNCH24", 10, 0⟩], []⟩ : Store).accessCodes ∧
      (⟨[⟨1, "LAUNCH24", 10, 0⟩],
        [⟨0, [JChar.tok ⟨⟨1, 5, 5 + msPerDay⟩, JWT_SECRET⟩], some 1, 5, 5 + msPerDay⟩]⟩
        : Store).sessions
        = ([] : List Session) ++
          [⟨([] : List Session).length, [JChar.tok ⟨⟨1, 5, 5 + msPerDay⟩, JWT_SECRET⟩],
            some ac.id, 5, 5 + msPerDay⟩] :=
  redeemCode_success_effect "LAUNCH24" ⟨[⟨1, "LAUNCH24", 10, 0⟩], []⟩ 5
    [JChar.tok ⟨⟨1, 5, 5 + msPerDay⟩, JWT_SECRET⟩]
    ⟨[⟨1, "LAUNCH24", 10, 0⟩],
      [⟨0, [JChar.tok ⟨⟨1, 5, 5 + msPerDay⟩, JWT_SECRET⟩], some 1, 5, 5 + msPerDay⟩]⟩
    (by decide)

lemma authenticate_ok_of (st : Store) (now : Nat) (td : TokenData) (s : Session)
    (hsig : td.sig = JWT_SECRET) (hexp : now < td.claims.exp)
    (hfind : findFirstSessionByToken st [JChar.tok td] = some s)
    (hsexp : ¬ s.expiresAt < now) :
    (authenticate (some (JStr.ofString "Bearer " ++ [JChar.tok td])) st now).1
      = RouteResult.ok td.claims := by
  have hhdr : headerTokenSeg (some (JStr.ofString "Bearer " ++ [JChar.tok td]))
      = some [JChar.tok td] := by
    have h1 : JStr.ofString "Bearer " ++ [JChar.tok td]
        = JStr.ofString "Bearer" ++ JChar.ch ' ' :: [JChar.tok td] := by
      rw [show ("Bearer " : String) = "Bearer" ++ " " from rfl, ofString_space_append]
    rw [h1, headerTokenSeg_word_space _ _ (by decide), splitChar_nosep _ _ (by simp)]
    rfl
  unfold authenticate
  rw [hhdr]
  simp [jwtVerify, hsig, hexp, hfind, hsexp]

/-- C1: redeeming an existing code whose `validUntil` is strictly in the
future succeeds, and authenticating immediately with header
`Bearer <token>` succeeds with decoded claims carrying the same AccessCode
id that was redeemed. The redeemed code is non-empty (the spec's input
constraint) and the minted token string is fresh, which the `unique`
constraint on `sessions.token` otherwise enforces. -/
theorem redeem_then_authenticate_roundtrip (st : Store) (now : Nat) (code : String)
    (ac : AccessCode)
    (hcode : code ≠ "")
    (hfind : findFirstAccessCodeByCode st code = some ac)
    (hfut : now < ac.validUntil)
    (hfresh : findFirstSessionByToken st (jwtSign ac.id JWT_SECRET now) = none) :
    ∃ tok st', redeemCode code st now = (RouteResult.ok tok, st') ∧
      ∃ c, (authenticate (some (JStr.ofString "Bearer " ++ tok)) st' now).1
          = RouteResult.ok c ∧ c.codeId = ac.id := by
  have hval : ¬ ac.validUntil < now := Nat.not_lt.mpr (Nat.le_of_lt hfut)
  have hred := redeemCode_ok_intro code st now ac hcode hfind hval hfresh
  refine ⟨jwtSign ac.id JWT_SECRET now, _, hred, ⟨ac.id, now, now + msPerDay⟩, ?_, rfl⟩
  have hfresh' : (List.find? (fun s => s.token == jwtSign ac.id JWT_SECRET now) st.sessions)
      = none := hfresh
  have hsess : findFirstSessionByToken
      ⟨st.accessCodes, st.sessions ++
        [⟨st.sessions.length, jwtSign ac.id JWT_SECRET now, some ac.id, now, now + msPerDay⟩]⟩
      [JChar.tok ⟨⟨ac.id, now, now + msPerDay⟩, JWT_SECRET⟩]
      = some ⟨st.sessions.length, jwtSign ac.id JWT_SECRET now,
          some ac.id, now, now + msPerDay⟩ := by
    unfold findFirstSessionByToken
    rw [List.find?_append]
    have : [JChar.tok ⟨⟨ac.id, now, now + msPerDay⟩, JWT_SECRET⟩]
        = jwtSign ac.id JWT_SECRET now := rfl
    rw [this, hfresh']
    simp
  have := authenticate_ok_of
    ⟨st.accessCodes, st.sessions ++
      [⟨st.sessions.length, jwtSign ac.id JWT_SECRET now, some ac.id, now, now + msPerDay⟩]⟩
    now ⟨⟨ac.id, now, now + msPerDay⟩, JWT_SECRET⟩
    ⟨st.sessions.length, jwtSign ac.id JWT_SECRET now, some ac.id, now, now + msPerDay⟩
    rfl (Nat.lt_add_of_pos_right (by decide)) hsess (by simp)
  exact this

/-- C1 witness: the round-trip at a concrete store, code and time. -/
theorem redeem_then_authenticate_roundtrip_witness :
    ∃ tok st', redeemCode "LAUNCH24" ⟨[⟨1, "LAUNCH24", 10, 0⟩], []⟩ 5
        = (RouteResult.ok tok, st') ∧
      ∃ c, (authenticate (some (JStr.ofString "Bearer " ++ tok)) st' 5).1
          = RouteResult.ok c ∧ c.codeId = 1 :=
  redeem_then_authenticate_roundtrip ⟨[⟨1, "LAUNCH24", 10, 0⟩], []⟩ 5 "LAUNCH24"
    ⟨1, "LAUNCH24", 10, 0⟩ (by decide) (by decide) (by decide) (by decide)

/-- C3: for the token segment the middleware extracts, a failing signature or
structural verification makes `authenticate` fail 401 with that verification
error's message; a missing session row for the exact token string also makes
it fail 401; and success requires both checks to pass — a successful
`authenticate` yields exactly the verified claims together with an existing,
unexpired session row for the token. -/
theorem authenticate_requires_signature_and_session (h : Option JStr) (st : Store)
    (now : Nat) (tk : JStr)
    (hhdr : headerTokenSeg h = some tk) (hne : tk ≠ []) :
    (∀ m, jwtVerify tk JWT_SECRET now = Except.error m →
      (authenticate h st now).1 = RouteResult.err 401 m) ∧
    (findFirstSessionByToken st tk = none →
      ∃ m, (authenticate h st now).1 = RouteResult.err 401 m) ∧
    (∀ c, (authenticate h st now).1 = RouteResult.ok c →
      jwtVerify tk JWT_SECRET now = Except.ok c ∧
      ∃ s, findFirstSessionByToken st tk = some s ∧ ¬ s.expiresAt < now) := by
  unfold authenticate
  rw [hhdr]
  refine ⟨?_, ?_, ?_⟩
  · intro m hm
    simp [hne, hm]
  · intro hf
    rcases hv : jwtVerify tk JWT_SECRET now with m | c
    · exact ⟨m, by simp [hne, hv]⟩
    · exact ⟨"Session expired", by simp [hne, hv, hf]⟩
  · intro c hc
    rcases hv : jwtVerify tk JWT_SECRET now with m | c'
    · simp [hne, hv] at hc
    · rcases hf : findFirstSessionByToken st tk with _ | s
      · simp [hne, hv, hf] at hc
      · by_cases hex : s.expiresAt < now
        · simp [hne, hv, hf, hex] at hc
        · simp [hne, hv, hf, hex] at hc
          exact ⟨by rw [hc], s, rfl, hex⟩

/-- C3 witness: the statement at a concrete header whose token segment is the
plain word `x`. -/
theorem authenticate_requires_signature_and_session_witness :
    (∀ m, jwtVerify (JStr.ofString "x") JWT_SECRET 0 = Except.error m →
      (authenticate (some (JStr.ofString "Bearer x")) ⟨[], []⟩ 0).1
        = RouteResult.err 401 m) ∧
    (findFirstSessionByToken ⟨[], []⟩ (JStr.ofString "x") = none →
      ∃ m, (authenticate (some (JStr.ofString "Bearer x")) ⟨[], []⟩ 0).1
        = RouteResult.err 401 m) ∧
    (∀ c, (authenticate (some (JStr.ofString "Bearer x")) ⟨[], []⟩ 0).1
        = RouteResult.ok c →
      jwtVerify (JStr.ofString "x") JWT_SECRET 0 = Except.ok c ∧
      ∃ s, findFirstSessionByToken ⟨[], []⟩ (JStr.ofString "x") = some s ∧
        ¬ s.expiresAt < 0) :=
  authenticate_requires_signature_and_session
    (some (JStr.ofString "Bearer x")) ⟨[], []⟩ 0 (JStr.ofString "x")
    (by decide) (by decide)

/-- C5: once a session's `expiresAt` has passed, `authenticate` with that
session's token fails at the current time and at every later time, even when
the token's signature and expiry claim are still structurally valid — the
Expired state is terminal. Session tokens are assumed unique in the store,
which the `unique` column constraint enforces. -/
theorem authenticate_expired_session_never_succeeds (st : Store) (s : Session)
    (now later : Nat) (h : Option JStr)
    (_hmem : s ∈ st.sessions)
    (huniq : ∀ s' ∈ st.sessions, s'.token = s.token → s' = s)
    (hexp : s.expiresAt < now)
    (hle : now ≤ later)
    (hhdr : headerTokenSeg h = some s.token) :
    ∃ m, (authenticate h st later).1 = RouteResult.err 401 m := by
  unfold authenticate
  rw [hhdr]
  by_cases hne : s.token = []
  · exact ⟨"No token provided", by simp [hne]⟩
  · rcases hv : jwtVerify s.token JWT_SECRET later with m | c
    · exact ⟨m, by simp [hne, hv]⟩
    · rcases hf : findFirstSessionByToken st s.token with _ | s₀
      · exact ⟨"Session expired", by simp [hne, hv, hf]⟩
      · have hf' : st.sessions.find? (fun x => x.token == s.token) = some s₀ := hf
        have hmem₀ : s₀ ∈ st.sessions := List.mem_of_find?_eq_some hf'
        have htk : s₀.token = s.token := by simpa using List.find?_some hf'
        have hs₀ : s₀ = s := huniq s₀ hmem₀ htk
        have hexp' : s₀.expiresAt < later :=
          hs₀ ▸ Nat.lt_of_lt_of_le hexp hle
        exact ⟨"Session expired", by simp [hne, hv, hf, hexp']⟩

/-- C5 witness: a concrete expired session whose token still verifies at the
later time. -/
theorem authenticate_expired_session_never_succeeds_witness :
    ∃ m, (authenticate
        (some (JStr.ofString "Bearer " ++ [JChar.tok ⟨⟨1, 0, msPerDay⟩, "cinema-secret"⟩]))
        ⟨[], [⟨0, [JChar.tok ⟨⟨1, 0, msPerDay⟩, "cinema-secret"⟩], some 1, 0, 100⟩]⟩ 300).1
      = RouteResult.err 401 m :=
  authenticate_expired_session_never_succeeds
    ⟨[], [⟨0, [JChar.tok ⟨⟨1, 0, msPerDay⟩, "cinema-secret"⟩], some 1, 0, 100⟩]⟩
    ⟨0, [JChar.tok ⟨⟨1, 0, msPerDay⟩, "cinema-secret"⟩], some 1, 0, 100⟩
    200 300
    (some (JStr.ofString "Bearer " ++ [JChar.tok ⟨⟨1, 0, msPerDay⟩, "cinema-secret"⟩]))
    (by decide) (by decide) (by decide) (by decide) (by decide)

/-- C4: for a non-empty input code (the spec's input constraint on
RedeemCode), redemption succeeds exactly when some AccessCode row matches the
input by exact string equality and the current time is at most its
`validUntil`. Codes are assumed pairwise unique (the `unique` column
constraint) and the minted token fresh (the `unique` constraint on
`sessions.token`), so the lookup and the insert behave as on a real
database. -/
theorem redeemCode_success_iff (st : Store) (now : Nat) (code : String)
    (hcode : code ≠ "")
    (huniq : ∀ a ∈ st.accessCodes, ∀ b ∈ st.accessCodes, a.code = b.code → a = b)
    (hfresh : ∀ a ∈ st.accessCodes,
      findFirstSessionByToken st (jwtSign a.id JWT_SECRET now) = none) :
    (∃ tok st', redeemCode code st now = (RouteResult.ok tok, st')) ↔
      ∃ a ∈ st.accessCodes, a.code = code ∧ now ≤ a.validUntil := by
  constructor
  · rintro ⟨tok, st', h⟩
    obtain ⟨-, ac, hfind, hval, -, -⟩ := redeemCode_ok_cases code st now tok st' h
    have hfind' : st.accessCodes.find? (fun a => a.code == code) = some ac := hfind
    have hmem : ac ∈ st.accessCodes := List.mem_of_find?_eq_some hfind'
    have hp : ac.code = code := by simpa using List.find?_some hfind'
    exact ⟨ac, hmem, hp, Nat.not_lt.mp hval⟩
  · rintro ⟨a, hmem, hac, hval⟩
    have hsome : (st.accessCodes.find? (fun x => x.code == code)).isSome :=
      List.find?_isSome.mpr ⟨a, hmem, by simp [hac]⟩
    rcases hf : st.accessCodes.find? (fun x => x.code == code) with _ | b
    · rw [hf] at hsome
      simp at hsome
    · have hbmem : b ∈ st.accessCodes := List.mem_of_find?_eq_some hf
      have hbcode : b.code = code := by simpa using List.find?_some hf
      have hba : b = a := huniq b hbmem a hmem (by rw [hbcode, hac])
      have hval' : ¬ b.validUntil < now := by
        rw [hba]
        exact Nat.not_lt.mpr hval
      have hfind : findFirstAccessCodeByCode st code = some b := hf
      have := redeemCode_ok_intro code st now b hcode hfind hval'
        (by rw [hba]; exact hfresh a hmem)
      exact ⟨_, _, this⟩

/-- C4 witness: the equivalence at a concrete store, code and time. -/
theorem redeemCode_success_iff_witness :
    (∃ tok st', redeemCode "LAUNCH24" ⟨[⟨1, "LAUNCH24", 10, 0⟩], []⟩ 5
        = (RouteResult.ok tok, st')) ↔
      ∃ a ∈ (⟨[⟨1, "LAUNCH24", 10, 0⟩], []⟩ : Store).accessCodes,
        a.code = "LAUNCH24" ∧ 5 ≤ a.validUntil :=
  redeemCode_success_iff ⟨[⟨1, "LAUNCH24", 10, 0⟩], []⟩ 5 "LAUNCH24"
    (by decide) (by decide) (by decide)

/-- C9: a successful redemption leaves the AccessCode table exactly unchanged
(no mutation or deletion), so a later redemption of the same code — while the
code is still valid — also succeeds, minting a further distinct session row
that references the same AccessCode id; the first session row is still
present afterwards, so many sessions reference one code. -/
theorem redeemCode_repeatable (st : Store) (now later : Nat) (code : String)
    (tok : JStr) (st' : Store) (ac : AccessCode)
    (hred : redeemCode code st now = (RouteResult.ok tok, st'))
    (hfind : findFirstAccessCodeByCode st code = some ac)
    (hlt : now < later)
    (hval : later ≤ ac.validUntil)
    (hfresh : findFirstSessionByToken st (jwtSign ac.id JWT_SECRET later) = none) :
    st'.accessCodes = st.accessCodes ∧
    ∃ tok' st'', redeemCode code st' later = (RouteResult.ok tok', st'') ∧
      tok' ≠ tok ∧
      st''.sessions = st'.sessions ++
        [⟨st'.sessions.length, tok', some ac.id, later, later + msPerDay⟩] ∧
      (⟨st.sessions.length, tok, some ac.id, now, now + msPerDay⟩ : Session)
        ∈ st''.sessions := by
  obtain ⟨hcode, ac₀, hfind₀, -, htok, hst⟩ := redeemCode_ok_cases code st now tok st' hred
  have hac : ac₀ = ac := Option.some.inj (hfind₀.symm.trans hfind)
  subst hac
  have htokne : jwtSign ac₀.id JWT_SECRET later ≠ tok := by
    rw [htok]
    simp [jwtSign]
    intro he
    omega
  have hfind' : findFirstAccessCodeByCode st' code = some ac₀ := by
    rw [hst]
    exact hfind
  have hval' : ¬ ac₀.validUntil < later := Nat.not_lt.mpr hval
  have hfresh' : findFirstSessionByToken st' (jwtSign ac₀.id JWT_SECRET later) = none := by
    rw [hst]
    unfold findFirstSessionByToken
    rw [List.find?_append]
    have h₁ : List.find? (fun s => s.token == jwtSign ac₀.id JWT_SECRET later) st.sessions
        = none := hfresh
    rw [h₁]
    simp
    exact fun he => htokne he.symm
  have hintro := redeemCode_ok_intro code st' later ac₀ hcode hfind' hval' hfresh'
  refine ⟨by rw [hst], jwtSign ac₀.id JWT_SECRET later, _, hintro, htokne, by rw [hst], ?_⟩
  rw [hst]
  simp

/-- C9 witness: two redemptions of the same still-valid code at times 5 and
6. -/
theorem redeemCode_repeatable_witness :
    (⟨[⟨1, "LAUNCH24", 10, 0⟩],
      [⟨0, [JChar.tok ⟨⟨1, 5, 5 + msPerDay⟩, JWT_SECRET⟩], some 1, 5, 5 + msPerDay⟩]⟩
      : Store).accessCodes
      = (⟨[⟨1, "LAUNCH24", 10, 0⟩], []⟩ : Store).accessCodes ∧
    ∃ tok' st'', redeemCode "LAUNCH24"
        ⟨[⟨1, "LAUNCH24", 10, 0⟩],
          [⟨0, [JChar.tok ⟨⟨1, 5, 5 + msPerDay⟩, JWT_SECRET⟩], some 1, 5, 5 + msPerDay⟩]⟩ 6
        = (RouteResult.ok tok', st'') ∧
      tok' ≠ [JChar.tok ⟨⟨1, 5, 5 + msPerDay⟩, JWT_SECRET⟩] ∧
      st''.sessions = (⟨[⟨1, "LAUNCH24", 10, 0⟩],
          [⟨0, [JChar.tok ⟨⟨1, 5, 5 + msPerDay⟩, JWT_SECRET⟩], some 1, 5, 5 + msPerDay⟩]⟩
          : Store).sessions ++
        [⟨(⟨[⟨1, "LAUNCH24", 10, 0⟩],
            [⟨0, [JChar.tok ⟨⟨1, 5, 5 + msPerDay⟩, JWT_SECRET⟩], some 1, 5, 5 + msPerDay⟩]⟩
            : Store).sessions.length, tok', some 1, 6, 6 + msPerDay⟩] ∧
      (⟨([] : List Session).length, [JChar.tok ⟨⟨1, 5, 5 + msPerDay⟩, JWT_SECRET⟩],
          some 1, 5, 5 + msPerDay⟩ : Session) ∈ st''.sessions :=
  redeemCode_repeatable ⟨[⟨1, "LAUNCH24", 10, 0⟩], []⟩ 5 6 "LAUNCH24"
    [JChar.tok ⟨⟨1, 5, 5 + msPerDay⟩, JWT_SECRET⟩]
    ⟨[⟨1, "LAUNCH24", 10, 0⟩],
      [⟨0, [JChar.tok ⟨⟨1, 5, 5 + msPerDay⟩, JWT_SECRET⟩], some 1, 5, 5 + msPerDay⟩]⟩
    ⟨1, "LAUNCH24", 10, 0⟩
    (by decide) (by decide) (by decide) (by decide) (by decide)

/-- C10: the middleware never validates the authorization scheme word — for
any non-empty space-free word `s`, a header `s + ' ' + t` authenticates with
exactly the same result as `Bearer <t>`, because only the second
space-separated segment is used; and a header containing no space (hence no
second segment) fails 401 `No token provided`. -/
theorem authenticate_ignores_scheme_word (s t : JStr) (st : Store) (now : Nat)
    (_hne : s ≠ []) (hnosp : JChar.ch ' ' ∉ s) :
    authenticate (some (s ++ JChar.ch ' ' :: t)) st now
      = authenticate (some (JStr.ofString "Bearer " ++ t)) st now ∧
    ∀ hd : JStr, JChar.ch ' ' ∉ hd →
      authenticate (some hd) st now = (RouteResult.err 401 "No token provided", st) := by
  constructor
  · apply authenticate_congr
    rw [headerTokenSeg_word_space s t hnosp]
    rw [show JStr.ofString "Bearer " ++ t = JStr.ofString "Bearer" ++ JChar.ch ' ' :: t from by
      rw [show ("Bearer " : String) = "Bearer" ++ " " from rfl, ofString_space_append]]
    rw [headerTokenSeg_word_space (JStr.ofString "Bearer") t (by decide)]
  · intro hd hnosp'
    unfold authenticate
    rw [show headerTokenSeg (some hd) = (splitChar (JChar.ch ' ') hd)[1]? from rfl,
      splitChar_nosep (JChar.ch ' ') hd hnosp']
    rfl

/-- C10 witness: scheme word `Basic` behaves like `Bearer`, at concrete
inputs. -/
theorem authenticate_ignores_scheme_word_witness :
    authenticate (some (JStr.ofString "Basic" ++ JChar.ch ' ' :: JStr.ofString "x"))
        ⟨[], []⟩ 0
      = authenticate (some (JStr.ofString "Bearer " ++ JStr.ofString "x")) ⟨[], []⟩ 0 ∧
    authenticate (some (JStr.ofString "Bearer")) ⟨[], []⟩ 0
      = (RouteResult.err 401 "No token provided", ⟨[], []⟩) :=
  ⟨(authenticate_ignores_scheme_word (JStr.ofString "Basic") (JStr.ofString "x")
      ⟨[], []⟩ 0 (by decide) (by decide)).1,
   (authenticate_ignores_scheme_word (JStr.ofString "Basic") (JStr.ofString "x")
      ⟨[], []⟩ 0 (by decide) (by decide)).2 (JStr.ofString "Bearer") (by decide)⟩
